import Mathlib

/-!
Verification of the generated Capn Proto accessor code for the Date struct
(src/rustfbp/src/bin/schema/date_capnp.rs) over a shallow embedding.

The generated file delegates to the capnp runtime layer (layout::StructReader,
layout::StructBuilder, layout::PointerReader, layout::PointerBuilder).  That
runtime is not part of this repository source tree, so its operations are
modelled from the specification of the encoding scheme; the generated code
itself (field offsets, widths, constants, delegation structure) is embedded
directly from the source.
-/

namespace Capnp

/-- Modelled from the spec: the error taxonomy for malformed input; a
pointer or offset outside segment bounds yields BoundsViolation, a
recoverable failure returned to the caller. -/
inductive Error where
  | BoundsViolation
  | MalformedPointer
  | RecursionLimitExceeded
deriving DecidableEq

/-- StructSize as in layout::StructSize: data word count and pointer count. -/
structure StructSize where
  data : Nat
  pointers : Nat
deriving DecidableEq

/-- MessageSize as returned by total_size: word count and capability count. -/
structure MessageSize where
  wordCount : Nat
  capCount : Nat
deriving DecidableEq

/-- Twos-complement encoding of an i16 value into its 16-bit pattern. -/
def toU16 (v : Int) : Nat := (v % 65536).toNat

/-- Twos-complement decoding of a 16-bit pattern into an i16 value. -/
def fromI16 (n : Nat) : Int :=
  if n % 65536 < 32768 then ((n % 65536 : Nat) : Int) else ((n % 65536 : Nat) : Int) - 65536

/-- Twos-complement encoding of an i8 value into its 8-bit pattern. -/
def toU8 (v : Int) : Nat := (v % 256).toNat

/-- Twos-complement decoding of an 8-bit pattern into an i8 value. -/
def fromI8 (n : Nat) : Int :=
  if n % 256 < 128 then ((n % 256 : Nat) : Int) else ((n % 256 : Nat) : Int) - 256

/-- Modelled from the spec: a StructReader borrows the bytes of a struct
data section together with the data-section size (in bytes) advertised by
the struct pointer it was decoded from.  An older-schema struct may
advertise fewer bytes than a newer layout expects. -/
structure StructReader where
  data : List Nat
  dataBytes : Nat
deriving DecidableEq

/-- Modelled from the spec: read_data_field for a 16-bit field, offset in
16-bit elements, little-endian; returns the all-zero default when the field
lies outside the advertised data section, and never errors. -/
def StructReader.get_data_field_u16 (r : StructReader) (offset : Nat) : Nat :=
  if (offset + 1) * 2 ≤ r.dataBytes then
    r.data.getD (2 * offset) 0 + 256 * r.data.getD (2 * offset + 1) 0
  else 0

/-- Modelled from the spec: read_data_field for an 8-bit field, offset in
bytes; returns the all-zero default when the byte lies outside the
advertised data section, and never errors. -/
def StructReader.get_data_field_u8 (r : StructReader) (offset : Nat) : Nat :=
  if offset + 1 ≤ r.dataBytes then r.data.getD offset 0 else 0

/-- Modelled from the spec: total_size recursively sums the transitive size
of a struct; the Date layout has no pointer fields, so the sum is just the
data-section word count and no capabilities. -/
def StructReader.total_size (r : StructReader) : Except Error MessageSize :=
  .ok ⟨r.dataBytes / 8, 0⟩

/-- Modelled from the spec: a StructBuilder exclusively owns the bytes of a
struct data section; a builder is only ever constructed with a layout that
already covers all schema-declared offsets. -/
structure StructBuilder where
  data : List Nat
deriving DecidableEq

/-- Modelled from the spec: write_data_field for a 16-bit field, offset in
16-bit elements, little-endian in-place mutation. -/
def StructBuilder.set_data_field_u16 (b : StructBuilder) (offset : Nat) (n : Nat) :
    StructBuilder :=
  ⟨(b.data.set (2 * offset) (n % 256)).set (2 * offset + 1) (n / 256 % 256)⟩

/-- Modelled from the spec: read_data_field on a builder, 16-bit field; no
bounds failure is possible because the builder covers the whole layout. -/
def StructBuilder.get_data_field_u16 (b : StructBuilder) (offset : Nat) : Nat :=
  b.data.getD (2 * offset) 0 + 256 * b.data.getD (2 * offset + 1) 0

/-- Modelled from the spec: write_data_field for an 8-bit field, offset in
bytes. -/
def StructBuilder.set_data_field_u8 (b : StructBuilder) (offset : Nat) (n : Nat) :
    StructBuilder :=
  ⟨b.data.set offset (n % 256)⟩

/-- Modelled from the spec: read_data_field on a builder, 8-bit field. -/
def StructBuilder.get_data_field_u8 (b : StructBuilder) (offset : Nat) : Nat :=
  b.data.getD offset 0

/-- Modelled from the spec: as_reader produces a read-only snapshot view of
the builder region; the snapshot advertises the full region it covers. -/
def StructBuilder.as_reader (b : StructBuilder) : StructReader :=
  ⟨b.data, b.data.length⟩

/-- Modelled from the spec: the kinds of wire pointer relevant to struct
decoding; a struct pointer carries a word offset and the advertised target
layout. -/
inductive WirePointer where
  | null
  | structPtr (offset : Int) (dataWords : Nat) (ptrWords : Nat)
deriving DecidableEq

/-- Modelled from the spec: a PointerReader locates a decoded wire pointer
at a word position inside a segment (given as its bytes). -/
structure PointerReader where
  seg : List Nat
  pos : Nat
  ptr : WirePointer
deriving DecidableEq

/-- Bounds check for a struct pointer: the decoded target start must be
non-negative and the advertised layout must lie inside the segment. -/
def structPtrInBounds (segLen pos : Nat) (off : Int) (dw pw : Nat) : Bool :=
  decide (0 ≤ (pos : Int) + 1 + off) &&
    decide (((((pos : Int) + 1 + off).toNat + dw + pw) * 8 ≤ segLen))

/-- Modelled from the spec: get_struct validates that the advertised target
layout does not exceed the bounds of the referenced segment, failing with
BoundsViolation and never reading past the segment; a null pointer decodes
to the canonical default (empty) reader. -/
def PointerReader.get_struct (pr : PointerReader) : Except Error StructReader :=
  match pr.ptr with
  | .null => .ok ⟨[], 0⟩
  | .structPtr off dw pw =>
    if structPtrInBounds pr.seg.length pr.pos off dw pw then
      .ok ⟨(pr.seg.drop (((pr.pos : Int) + 1 + off).toNat * 8)).take (dw * 8), dw * 8⟩
    else
      .error .BoundsViolation

/-- Modelled from the spec: a PointerBuilder locates a pointer slot in a
builder segment. -/
structure PointerBuilder where
  seg : List Nat
  pos : Nat
deriving DecidableEq

/-- Modelled from the spec: init_struct allocates a fresh zero-filled
region of exactly the given layout and returns an exclusive builder over
it. -/
def PointerBuilder.init_struct (_pb : PointerBuilder) (size : StructSize) : StructBuilder :=
  ⟨List.replicate (size.data * 8) 0⟩

end Capnp

namespace date

/-- TYPE_ID from mod _private of the generated code. -/
def TYPE_ID : Nat := 0xd9ccffea5a9cf423

/-- STRUCT_SIZE from mod _private of the generated code: 1 data word, 0
pointers. -/
def STRUCT_SIZE : Capnp.StructSize := ⟨1, 0⟩

/-- Reader wraps a layout::StructReader. -/
structure Reader where
  reader : Capnp.StructReader
deriving DecidableEq

/-- Builder wraps a layout::StructBuilder. -/
structure Builder where
  builder : Capnp.StructBuilder
deriving DecidableEq

/-- FromStructReader::new for Reader. -/
def Reader.new (r : Capnp.StructReader) : Reader := ⟨r⟩

/-- HasTypeId for Reader: returns _private::TYPE_ID. -/
def Reader.type_id : Nat := TYPE_ID

/-- FromPointerReader::get_from_pointer: Ok(new(try!(reader.get_struct(null)))). -/
def Reader.get_from_pointer (pr : Capnp.PointerReader) : Except Capnp.Error Reader :=
  match pr.get_struct with
  | .ok sr => .ok (Reader.new sr)
  | .error e => .error e

/-- Reader::borrow returns a copy of the reader. -/
def Reader.borrow (r : Reader) : Reader := r

/-- Reader::total_size delegates to the struct reader. -/
def Reader.total_size (r : Reader) : Except Capnp.Error Capnp.MessageSize :=
  r.reader.total_size

/-- Reader::get_year: get_data_field at 16-bit element offset 0. -/
def Reader.get_year (r : Reader) : Int :=
  Capnp.fromI16 (r.reader.get_data_field_u16 0)

/-- Reader::get_month: get_data_field at byte offset 2. -/
def Reader.get_month (r : Reader) : Int :=
  Capnp.fromI8 (r.reader.get_data_field_u8 2)

/-- Reader::get_day: get_data_field at byte offset 3. -/
def Reader.get_day (r : Reader) : Int :=
  Capnp.fromI8 (r.reader.get_data_field_u8 3)

/-- FromStructBuilder::new for Builder. -/
def Builder.new (b : Capnp.StructBuilder) : Builder := ⟨b⟩

/-- HasTypeId for Builder: returns _private::TYPE_ID. -/
def Builder.type_id : Nat := TYPE_ID

/-- HasStructSize::struct_size: returns _private::STRUCT_SIZE. -/
def Builder.struct_size : Capnp.StructSize := STRUCT_SIZE

/-- FromPointerBuilder::init_pointer: ignores the _size hint and
initializes a struct of layout STRUCT_SIZE. -/
def Builder.init_pointer (pb : Capnp.PointerBuilder) (_size : Nat) : Builder :=
  Builder.new (pb.init_struct STRUCT_SIZE)

/-- Builder::as_reader. -/
def Builder.as_reader (b : Builder) : Reader :=
  Reader.new b.builder.as_reader

/-- Builder::borrow_as_reader. -/
def Builder.borrow_as_reader (b : Builder) : Reader :=
  Reader.new b.builder.as_reader

/-- Builder::total_size: self.builder.as_reader().total_size(). -/
def Builder.total_size (b : Builder) : Except Capnp.Error Capnp.MessageSize :=
  b.builder.as_reader.total_size

/-- Builder::get_year. -/
def Builder.get_year (b : Builder) : Int :=
  Capnp.fromI16 (b.builder.get_data_field_u16 0)

/-- Builder::set_year. -/
def Builder.set_year (b : Builder) (v : Int) : Builder :=
  ⟨b.builder.set_data_field_u16 0 (Capnp.toU16 v)⟩

/-- Builder::get_month. -/
def Builder.get_month (b : Builder) : Int :=
  Capnp.fromI8 (b.builder.get_data_field_u8 2)

/-- Builder::set_month. -/
def Builder.set_month (b : Builder) (v : Int) : Builder :=
  ⟨b.builder.set_data_field_u8 2 (Capnp.toU8 v)⟩

/-- Builder::get_day. -/
def Builder.get_day (b : Builder) : Int :=
  Capnp.fromI8 (b.builder.get_data_field_u8 3)

/-- Builder::set_day. -/
def Builder.set_day (b : Builder) (v : Int) : Builder :=
  ⟨b.builder.set_data_field_u8 3 (Capnp.toU8 v)⟩

/-- A fresh Date builder, as produced by init_pointer: one zeroed data
word. -/
def fresh : Builder := Builder.init_pointer ⟨[], 0⟩ 0

end date

namespace DateSchema

/-- A schema field: bit offset, bit width, and whether it occupies the
pointer section. -/
structure FieldSpec where
  bitOffset : Nat
  bitWidth : Nat
  isPointer : Bool
deriving DecidableEq

/-- The Date schema field list, with offsets and widths as used by the
generated accessors: year is int16 at bits 0..16, month int8 at bits
16..24, day int8 at bits 24..32. -/
def dateFields : List FieldSpec :=
  [⟨0, 16, false⟩, ⟨16, 8, false⟩, ⟨24, 8, false⟩]

/-- Minimal data-word count covering a field list: the greatest bit extent
of a data field, rounded up to whole 64-bit words. -/
def minDataWords (fs : List FieldSpec) : Nat :=
  (((fs.filter (fun f => !f.isPointer)).map (fun f => f.bitOffset + f.bitWidth)).foldr
    max 0 + 63) / 64

/-- Pointer count of a field list. -/
def pointerCount (fs : List FieldSpec) : Nat :=
  (fs.filter (fun f => f.isPointer)).length

end DateSchema

namespace Capnp

theorem getD_set_same (l : List Nat) (i a : Nat) (h : i < l.length) :
    (l.set i a).getD i 0 = a := by
  induction l generalizing i with
  | nil => simp at h
  | cons x xs ih =>
    cases i with
    | zero => rfl
    | succ j => exact ih j (by simpa using h)

theorem getD_set_other (l : List Nat) (i j a : Nat) (h : i ≠ j) :
    (l.set i a).getD j 0 = l.getD j 0 := by
  induction l generalizing i j with
  | nil => rfl
  | cons x xs ih =>
    cases i with
    | zero =>
      cases j with
      | zero => exact absurd rfl h
      | succ k => rfl
    | succ i2 =>
      cases j with
      | zero => rfl
      | succ k => exact ih i2 k (by omega)

theorem toU16_lt (v : Int) : toU16 v < 65536 := by
  unfold toU16; omega

theorem toU8_lt (v : Int) : toU8 v < 256 := by
  unfold toU8; omega

theorem fromI16_toU16 (v : Int) (h1 : -32768 ≤ v) (h2 : v < 32768) :
    fromI16 (toU16 v) = v := by
  unfold toU16 fromI16
  split_ifs <;> omega

theorem fromI8_toU8 (v : Int) (h1 : -128 ≤ v) (h2 : v < 128) :
    fromI8 (toU8 v) = v := by
  unfold toU8 fromI8
  split_ifs <;> omega

theorem get_set_u16_zero (b : StructBuilder) (n : Nat) (hlen : 2 ≤ b.data.length)
    (hn : n < 65536) :
    (b.set_data_field_u16 0 n).get_data_field_u16 0 = n := by
  unfold StructBuilder.set_data_field_u16 StructBuilder.get_data_field_u16
  have h0 : (2 : Nat) * 0 = 0 := by norm_num
  have h1 : (2 : Nat) * 0 + 1 = 1 := by norm_num
  simp only [h0, h1]
  rw [getD_set_other _ 1 0 _ (by omega), getD_set_same _ 0 _ (by omega),
    getD_set_same _ 1 _ (by simp [List.length_set]; omega)]
  omega

theorem get_set_u8_at (b : StructBuilder) (o n : Nat) (hlen : o < b.data.length)
    (hn : n < 256) :
    (b.set_data_field_u8 o n).get_data_field_u8 o = n := by
  unfold StructBuilder.set_data_field_u8 StructBuilder.get_data_field_u8
  rw [getD_set_same _ o _ hlen]
  omega

end Capnp

/-- C1: for every i16 value v, set_year on a Date Builder followed by
get_year returns exactly v, and likewise for every i8 value with
set_month/get_month and set_day/get_day, each at its fixed byte offset
(0, 2, 3 respectively), on any builder covering the one-word Date layout. -/
theorem date_field_roundtrip (b : date.Builder) (v m d : Int)
    (hlen : b.builder.data.length = 8 * date.STRUCT_SIZE.data)
    (hv1 : -32768 ≤ v) (hv2 : v < 32768)
    (hm1 : -128 ≤ m) (hm2 : m < 128)
    (hd1 : -128 ≤ d) (hd2 : d < 128) :
    (b.set_year v).get_year = v ∧ (b.set_month m).get_month = m ∧
      (b.set_day d).get_day = d := by
  have hlen8 : b.builder.data.length = 8 := by
    simpa [date.STRUCT_SIZE] using hlen
  refine ⟨?_, ?_, ?_⟩
  · show Capnp.fromI16 ((b.builder.set_data_field_u16 0 (Capnp.toU16 v)).get_data_field_u16 0) = v
    rw [Capnp.get_set_u16_zero _ _ (by omega) (Capnp.toU16_lt v)]
    exact Capnp.fromI16_toU16 v hv1 hv2
  · show Capnp.fromI8 ((b.builder.set_data_field_u8 2 (Capnp.toU8 m)).get_data_field_u8 2) = m
    rw [Capnp.get_set_u8_at _ _ _ (by omega) (Capnp.toU8_lt m)]
    exact Capnp.fromI8_toU8 m hm1 hm2
  · show Capnp.fromI8 ((b.builder.set_data_field_u8 3 (Capnp.toU8 d)).get_data_field_u8 3) = d
    rw [Capnp.get_set_u8_at _ _ _ (by omega) (Capnp.toU8_lt d)]
    exact Capnp.fromI8_toU8 d hd1 hd2

/-- Witness for C1: the round-trip theorem applied to a fresh builder with
year -2024, month -3, day 15. -/
theorem date_field_roundtrip_witness :
    date.fresh.builder.data.length = 8 * date.STRUCT_SIZE.data ∧
      ((date.fresh.set_year (-2024)).get_year = -2024 ∧
        (date.fresh.set_month (-3)).get_month = -3 ∧
        (date.fresh.set_day 15).get_day = 15) :=
  ⟨by decide,
    date_field_roundtrip date.fresh (-2024) (-3) 15 (by decide) (by decide) (by decide)
      (by decide) (by decide) (by decide) (by decide)⟩

/-- C2: on a fresh Date Builder, set_year 2024, set_month 3, set_day 15
followed by reading all three fields through the Builder or its as_reader
view yields exactly (2024, 3, 15): the three writes in the single data word
do not disturb one another. -/
theorem date_scenario :
    (((date.fresh.set_year 2024).set_month 3).set_day 15).get_year = 2024 ∧
      (((date.fresh.set_year 2024).set_month 3).set_day 15).get_month = 3 ∧
      (((date.fresh.set_year 2024).set_month 3).set_day 15).get_day = 15 ∧
      (((date.fresh.set_year 2024).set_month 3).set_day 15).as_reader.get_year = 2024 ∧
      (((date.fresh.set_year 2024).set_month 3).set_day 15).as_reader.get_month = 3 ∧
      (((date.fresh.set_year 2024).set_month 3).set_day 15).as_reader.get_day = 15 := by
  decide

/-- C3: on a fresh Date Builder where only set_year has been called, the
month and day bytes were never written, so get_month and get_day return 0,
the schema default under the all-zero-means-default convention. -/
theorem date_untouched_defaults (v : Int) :
    (date.fresh.set_year v).get_month = 0 ∧ (date.fresh.set_year v).get_day = 0 := by
  unfold date.fresh date.Builder.init_pointer date.Builder.new date.Builder.set_year
    date.Builder.get_month date.Builder.get_day Capnp.PointerBuilder.init_struct
    Capnp.StructBuilder.set_data_field_u16 Capnp.StructBuilder.get_data_field_u8
  constructor
  · rw [Capnp.getD_set_other _ _ _ _ (by omega), Capnp.getD_set_other _ _ _ _ (by omega)]
    decide
  · rw [Capnp.getD_set_other _ _ _ _ (by omega), Capnp.getD_set_other _ _ _ _ (by omega)]
    decide

/-- C4: for every Date Reader whose underlying struct pointer advertises
fewer data words than the one-word Date layout (only zero qualifies, e.g. a
null pointer), get_year, get_month and get_day return the schema default 0
and never fail. -/
theorem date_compat_defaults (sr : Capnp.StructReader) (w : Nat)
    (hw : sr.dataBytes = 8 * w) (hlt : w < date.STRUCT_SIZE.data) :
    (date.Reader.new sr).get_year = 0 ∧ (date.Reader.new sr).get_month = 0 ∧
      (date.Reader.new sr).get_day = 0 := by
  have hz : sr.dataBytes = 0 := by
    have hw0 : w = 0 := by
      have h1 : w < 1 := by simpa [date.STRUCT_SIZE] using hlt
      omega
    omega
  unfold date.Reader.new date.Reader.get_year date.Reader.get_month date.Reader.get_day
    Capnp.StructReader.get_data_field_u16 Capnp.StructReader.get_data_field_u8
  simp [hz, Capnp.fromI16, Capnp.fromI8]

/-- Witness for C4: the compatibility theorem applied to the empty reader
produced by a null pointer (zero data words). -/
theorem date_compat_defaults_witness :
    (Capnp.StructReader.mk [] 0).dataBytes = 8 * 0 ∧ 0 < date.STRUCT_SIZE.data ∧
      ((date.Reader.new ⟨[], 0⟩).get_year = 0 ∧ (date.Reader.new ⟨[], 0⟩).get_month = 0 ∧
        (date.Reader.new ⟨[], 0⟩).get_day = 0) :=
  ⟨rfl, by decide, date_compat_defaults ⟨[], 0⟩ 0 rfl (by decide)⟩

/-- C5: for every pointer whose decoded offset or advertised layout falls
outside the bounds of the referenced segment, obtaining a Date Reader via
get_from_pointer returns the recoverable BoundsViolation error rather than
reading out of bounds. -/
theorem date_malformed_pointer_error (pr : Capnp.PointerReader) (off : Int) (dw pw : Nat)
    (hp : pr.ptr = .structPtr off dw pw)
    (hb : Capnp.structPtrInBounds pr.seg.length pr.pos off dw pw = false) :
    date.Reader.get_from_pointer pr = .error .BoundsViolation := by
  unfold date.Reader.get_from_pointer Capnp.PointerReader.get_struct
  rw [hp]
  simp [hb]

/-- Witness for C5: a one-word segment with a struct pointer advertising a
two-word target is rejected with BoundsViolation. -/
theorem date_malformed_pointer_error_witness :
    Capnp.structPtrInBounds (List.replicate 8 0).length 0 0 2 0 = false ∧
      date.Reader.get_from_pointer ⟨List.replicate 8 0, 0, .structPtr 0 2 0⟩ =
        .error .BoundsViolation :=
  ⟨by decide,
    date_malformed_pointer_error ⟨List.replicate 8 0, 0, .structPtr 0 2 0⟩ 0 2 0 rfl
      (by decide)⟩

/-- C6: the Date struct layout STRUCT_SIZE is exactly one data word and
zero pointers, which is the minimal footprint covering the schema fields
year:int16, month:int8, day:int8 rounded up to a whole word, and the
per-instance struct_size accessor returns this same compile-time
constant. -/
theorem date_minimal_layout :
    date.STRUCT_SIZE =
        ⟨DateSchema.minDataWords DateSchema.dateFields,
          DateSchema.pointerCount DateSchema.dateFields⟩ ∧
      date.STRUCT_SIZE.data = 1 ∧ date.STRUCT_SIZE.pointers = 0 ∧
      date.Builder.struct_size = date.STRUCT_SIZE := by
  decide

/-- C7: Reader::type_id and Builder::type_id for the Date type return the
same fixed 64-bit identifier 0xd9ccffea5a9cf423. -/
theorem date_type_id_consistent :
    date.Reader.type_id = date.Builder.type_id ∧
      date.Reader.type_id = 0xd9ccffea5a9cf423 :=
  ⟨rfl, rfl⟩

/-- C8: a Date Reader is freely duplicable and read-deterministic: the copy
produced by borrow is the reader itself, and get_year, get_month and
get_day return equal values on the reader and its copy; reading is a pure
function of the reader and mutates nothing. -/
theorem date_reader_copy_deterministic (r : date.Reader) :
    r.borrow = r ∧ r.borrow.get_year = r.get_year ∧
      r.borrow.get_month = r.get_month ∧ r.borrow.get_day = r.get_day :=
  ⟨rfl, rfl, rfl, rfl⟩

/-- C9: for every Date Builder b, b.total_size is definitionally the
Reader-view computation b.as_reader.total_size, so the two views never
disagree about a message size. -/
theorem date_total_size_agreement (b : date.Builder) :
    b.total_size = b.as_reader.total_size :=
  rfl

/-- C10: init_pointer for the Date type allocates a struct with the fixed
layout STRUCT_SIZE (one data word, zero pointers) for every value of the
_size argument: the caller-supplied size hint has no effect on the
resulting Builder. -/
theorem date_init_pointer_ignores_size (pb : Capnp.PointerBuilder) (s t : Nat) :
    date.Builder.init_pointer pb s = date.Builder.init_pointer pb t ∧
      (date.Builder.init_pointer pb s).builder.data.length = 8 * date.STRUCT_SIZE.data := by
  refine ⟨rfl, ?_⟩
  simp [date.Builder.init_pointer, date.Builder.new, Capnp.PointerBuilder.init_struct,
    date.STRUCT_SIZE]
